import Mathlib

/-!
Shallow embedding of `src/native-host/profile_switcher_host.py`
(Chrome Profile Switcher native messaging host) and proofs about it.

Modelling conventions:
* JSON values are the inductive `JsonVal`; JSON objects (Python dicts) are
  association lists `List (String × JsonVal)` with unique keys, in insertion
  order (Python 3 dicts preserve insertion order).
* Python `None` and JSON `null` are identified by `dict.get`, which returns
  `None` both for a missing key and for a stored `null`; `pyGet` models this.
* The signal directory `/tmp/chrome-profile-switcher` is a finite map from
  file name (profile directory key) to file content.  The standard-library
  functions `json.dumps` / `json.loads` are external to the repository and
  assumed correct, so a file's content is modelled as either the parse tree
  it serializes (`SlotContent.parsed`) or as unparsable text
  (`SlotContent.corrupt`).
* Strings are ASCII-faithful: `str.split()` and `int()` are modelled for
  ASCII whitespace and ASCII decimal digits (with Python's underscore
  grouping and sign rules), which covers every directory name Chrome
  produces.
-/

namespace ProfileSwitcher

/-- JSON value, as produced by Python's `json` module. -/
inductive JsonVal where
  | null
  | bool (b : Bool)
  | num (n : Int)
  | str (s : String)
  | arr (elems : List JsonVal)
  | obj (fields : List (String × JsonVal))

/-- A JSON object / Python dict: association list in insertion order. -/
abbrev JsonObj := List (String × JsonVal)

/-- Lookup of a key in a Python dict (`d[k]` / `k in d`), as `Option`. -/
def jsonLookup (o : JsonObj) (k : String) : Option JsonVal :=
  match o with
  | [] => none
  | (k', v) :: rest => if k' = k then some v else jsonLookup rest k

/-- Python's `dict.get(k)`: `None` both when the key is missing and when the
stored JSON value is `null` (both are Python `None`). -/
def pyGet (o : JsonObj) (k : String) : Option JsonVal :=
  match jsonLookup o k with
  | some .null => none
  | r => r

/-- Python's `d[k] = v`: replace the value if the key exists (keeping its
position), else append the key at the end. -/
def setKey (o : JsonObj) (k : String) (v : JsonVal) : JsonObj :=
  match o with
  | [] => [(k, v)]
  | (k', v') :: rest => if k' = k then (k, v) :: rest else (k', v') :: setKey rest k v

/-- Python truthiness of a JSON value (`if url:`): `None`, `False`, `0`,
`""`, `[]` and an empty dict are falsy. -/
def JsonVal.truthy : JsonVal → Bool
  | .null => false
  | .bool b => b
  | .num n => n != 0
  | .str s => s != ""
  | .arr l => !l.isEmpty
  | .obj o => !o.isEmpty

/-- Truthiness of an optional string field (`if profile_dir:` /
`if current_email:`): `None` and the empty string are falsy. -/
def truthyStr : Option String → Bool
  | some s => s != ""
  | none => false

/-! ## highlight_color_to_hex (source lines 57-65) -/

/-- Lowercase hexadecimal digit, as used by Python's `x` format. -/
def hexDigit (n : Nat) : Char :=
  if n < 10 then Char.ofNat (48 + n) else Char.ofNat (87 + n)

/-- Python's format `f"\x7bn:02x\x7d"` for `n < 256`: exactly two lowercase
hex digits. -/
def hex2 (n : Nat) : String :=
  String.mk [hexDigit (n / 16 % 16), hexDigit (n % 16)]

/-- Embeds `highlight_color_to_hex`.  Python's `value & 0xFFFFFFFF` on
arbitrary-precision signed ints equals `value mod 2^32` (mask of all ones),
which is non-negative, so the masked value is a `Nat`. -/
def highlight_color_to_hex : Option Int → Option String
  | none => none
  | some value =>
    let unsigned : Nat := (value % (2 ^ 32 : Int)).toNat
    let r := (unsigned >>> 16) &&& 0xFF
    let g := (unsigned >>> 8) &&& 0xFF
    let b := unsigned &&& 0xFF
    some ("#" ++ hex2 r ++ hex2 g ++ hex2 b)

/-! ## profile_sort_key (source lines 81-89) and the sort in get_profiles -/

/-- Helper for `pySplit`: accumulate the current (reversed) token while
scanning; whitespace runs separate tokens and produce no empty tokens. -/
def pyTokens : List Char → List Char → List String
  | [], cur => if cur.isEmpty then [] else [String.mk cur.reverse]
  | c :: cs, cur =>
    if c.isWhitespace then
      if cur.isEmpty then pyTokens cs [] else String.mk cur.reverse :: pyTokens cs []
    else pyTokens cs (c :: cur)

/-- Python's `str.split()` with no argument: split on runs of whitespace,
discarding empty tokens (so an empty or all-whitespace string gives `[]`). -/
def pySplit (s : String) : List String :=
  pyTokens s.data []

/-- Value of a digit sequence already known to start with a digit; Python's
`int()` allows single underscores strictly between digits. -/
def pyDigitsVal : List Char → Nat → Option Nat
  | [], acc => some acc
  | '_' :: c :: cs, acc =>
    if c.isDigit then pyDigitsVal cs (acc * 10 + (c.toNat - 48)) else none
  | ['_'], _ => none
  | c :: cs, acc =>
    if c.isDigit then pyDigitsVal cs (acc * 10 + (c.toNat - 48)) else none

/-- Unsigned part of a Python int literal: nonempty, starts with a digit,
single underscores allowed between digits only. -/
def pyUnsigned : List Char → Option Nat
  | [] => none
  | c :: cs => if c.isDigit then pyDigitsVal cs (c.toNat - 48) else none

/-- Python's `int(s)` on a whitespace-free token (the tokens produced by
`str.split()` contain no whitespace): optional sign followed by digits.
`none` models the `ValueError` raised on anything else. -/
def pythonInt (s : String) : Option Int :=
  match s.data with
  | '+' :: rest => (pyUnsigned rest).map Int.ofNat
  | '-' :: rest => (pyUnsigned rest).map (fun n => -(Int.ofNat n))
  | l => (pyUnsigned l).map Int.ofNat

/-- Embeds `profile_sort_key`: `"Default"` maps to `(0, 0)`; otherwise
`int(dirname.split()[-1])` gives `(1, num)` when it succeeds; a `ValueError`
(non-integer last token) or `IndexError` (no tokens) gives `(2, 0)`. -/
def profile_sort_key (dirname : String) : Nat × Int :=
  if dirname = "Default" then (0, 0)
  else
    match (pySplit dirname).getLast? with
    | none => (2, 0)
    | some tok =>
      match pythonInt tok with
      | some num => (1, num)
      | none => (2, 0)

/-- Lexicographic order on sort keys, as Python compares tuples. -/
def keyLE (a b : Nat × Int) : Bool :=
  decide (a.1 < b.1) || (decide (a.1 = b.1) && decide (a.2 ≤ b.2))

/-- Comparison of directory names by `profile_sort_key`. -/
def dirLE (a b : String) : Bool :=
  keyLE (profile_sort_key a) (profile_sort_key b)

/-- Embeds `sorted(info_cache.keys(), key=profile_sort_key)`.  Python's
`sorted` is specified to be a stable sort by the key function; every stable
sort produces the same output, so the library stable merge sort embeds it. -/
def sortedProfileDirs (dirs : List String) : List String :=
  dirs.mergeSort dirLE

/-! ## Signal mailbox (source lines 133-171) -/

/-- Content of a signal file.  `json.dumps`/`json.loads` are stdlib
collaborators assumed correct and injective, so a file that was written by
`write_signal` is tracked as the object it serializes (`parsed`), and any
text that fails `json.loads` is `corrupt`. -/
inductive SlotContent where
  | parsed (payload : JsonObj)
  | corrupt

/-- State of the shared signal directory: file name (profile directory key)
to content, `none` when the file does not exist. -/
abbrev FS : Type := String → Option SlotContent

/-- Creating or overwriting a file (`Path.write_text`). -/
def fsInsert (p : String) (c : SlotContent) (fs : FS) : FS :=
  fun q => if q = p then some c else fs q

/-- Deleting a file (`Path.unlink`). -/
def fsErase (p : String) (fs : FS) : FS :=
  fun q => if q = p then none else fs q

/-- Embeds `write_signal`: serializes `data or \x7b\x7d` and overwrites the
slot.  `data or \x7b\x7d` is the payload when it is a non-empty dict and the
empty dict otherwise, which is exactly `data.getD []`.  The idempotent
`SIGNAL_DIR.mkdir(exist_ok=True)` has no observable effect on the slot map
and is not part of the state. -/
def write_signal (profile_dir : String) (data : Option JsonObj) (fs : FS) : FS :=
  fsInsert profile_dir (.parsed (data.getD [])) fs

/-- Embeds `read_signal`: if the slot file does not exist, return `None`
and leave the state alone; if it parses, delete it and return the payload;
if it is corrupt, delete it (ignoring a failed unlink) and return `None`. -/
def read_signal (profile_dir : String) (fs : FS) : Option JsonObj × FS :=
  match fs profile_dir with
  | none => (none, fs)
  | some (.parsed data) => (some data, fsErase profile_dir fs)
  | some .corrupt => (none, fsErase profile_dir fs)

/-- Polling loop of `wait_for_signal_consumed`, at poll index `i` with
`fuel` polls remaining before the deadline.  `trace i` is the state of the
shared signal directory observed at the `i`-th poll (other processes mutate
the directory concurrently, so the trace is a parameter of the model; one
poll per 100 ms, so `fuel` polls fit in the timeout).  When the deadline
passes, the slot is unlinked (a failed unlink of an already-absent file is
ignored, so the erase is unconditional). -/
def waitPoll (profile_dir : String) (trace : Nat → FS) : Nat → Nat → Bool × FS
  | i, 0 => (false, fsErase profile_dir (trace i))
  | i, fuel + 1 =>
    match trace i profile_dir with
    | none => (true, trace i)
    | some _ => waitPoll profile_dir trace (i + 1) fuel

/-- Embeds `wait_for_signal_consumed`: poll until the slot file is gone
(success) or the deadline passes (failure, after force-removing the slot). -/
def wait_for_signal_consumed (profile_dir : String) (trace : Nat → FS)
    (fuel : Nat) : Bool × FS :=
  waitPoll profile_dir trace 0 fuel

/-! ## Signal watcher (source lines 174-184) -/

/-- Embeds one iteration of the `signal_watcher` polling loop: `take` the
mailbox; on a payload, emit `open-url` with the url when `signal.get("url")`
is truthy (Python truthiness: `None`, the empty string, `0`, `False` … are
falsy), else emit a plain `activate` event.  The first component is the
message passed to `send_message`, if any. -/
def signal_watcher_step (profile_dir : String) (fs : FS) : Option JsonObj × FS :=
  match read_signal profile_dir fs with
  | (none, fs') => (none, fs')
  | (some signal, fs') =>
    match pyGet signal "url" with
    | some url =>
      if url.truthy then (some [("action", .str "open-url"), ("url", url)], fs')
      else (some [("action", .str "activate")], fs')
    | none => (some [("action", .str "activate")], fs')

/-! ## get_profiles (source lines 94-126) -/

/-- Metadata of one profile in Local State's `profile.info_cache`, at the
protocol's types; `none` models a missing key. -/
structure ProfileInfo where
  user_name : Option String
  name : Option String
  profile_highlight_color : Option Int

/-- Lookup `info_cache[dirname]`. -/
def lookupInfo : List (String × ProfileInfo) → String → Option ProfileInfo
  | [], _ => none
  | (k, v) :: rest, k' => if k = k' then some v else lookupInfo rest k'

/-- An optional string as the JSON value Python serializes it to. -/
def optStr : Option String → JsonVal
  | none => .null
  | some s => .str s

/-- An optional index as the JSON value Python serializes it to. -/
def optNat : Option Nat → JsonVal
  | none => .null
  | some i => .num i

/-- One entry of the `profiles` list built by `get_profiles`:
`info.get("user_name", "")`, `info.get("name", dirname)`, the converted
highlight color, and the avatar data URI (the avatar file read is an
external collaborator, passed in as a map from directory to data URI). -/
def profileRecord (dirname : String) (info : ProfileInfo)
    (avatar : String → Option String) : JsonVal :=
  .obj [
    ("directory", .str dirname),
    ("name", .str (info.name.getD dirname)),
    ("email", .str (info.user_name.getD "")),
    ("highlightColor", optStr (highlight_color_to_hex info.profile_highlight_color)),
    ("avatar", optStr (avatar dirname))]

/-- The `current_index` accumulation in the `get_profiles` loop: at index
`i`, when `current_email` is truthy and the entry's `user_name` equals it,
`current_index` is overwritten with `i` (so the last match wins). -/
def currentIndexScan (current_email : Option String) :
    List ProfileInfo → Nat → Option Nat → Option Nat
  | [], _, acc => acc
  | info :: rest, i, acc =>
    let acc' :=
      if truthyStr current_email ∧ info.user_name.getD "" = current_email.getD ""
      then some i else acc
    currentIndexScan current_email rest (i + 1) acc'

/-- Embeds `get_profiles`.  `localState` is the parsed
`profile.info_cache` of the Local State file in insertion order;
`.error e` models an `OSError` or `JSONDecodeError` while reading it, and
the empty cache (also produced by the `.get` defaults when the keys are
missing) yields the `"No profiles found"` error. -/
def get_profiles (localState : Except String (List (String × ProfileInfo)))
    (avatar : String → Option String) (current_email : Option String) : JsonObj :=
  match localState with
  | .error e => [("error", .str ("Failed to read Local State: " ++ e))]
  | .ok info_cache =>
    if info_cache.isEmpty then [("error", .str "No profiles found in Local State")]
    else
      let sorted_dirs := sortedProfileDirs (info_cache.map Prod.fst)
      let entries := sorted_dirs.map fun d =>
        (d, (lookupInfo info_cache d).getD ⟨none, none, none⟩)
      let profiles := entries.map fun e => profileRecord e.1 e.2 avatar
      let current_index := currentIndexScan current_email (entries.map Prod.snd) 0 none
      [("profiles", .arr profiles), ("currentIndex", optNat current_index)]

/-! ## Activation orchestrator (source lines 187-235) -/

/-- Result of the `subprocess.Popen` launch call: normal start, or the
`OSError` it raised. -/
inductive SpawnOutcome where
  | ok
  | oserror (msg : String)

/-- The Chrome binary path constant. -/
def CHROME_BIN : String := "/Applications/Google Chrome.app/Contents/MacOS/Google Chrome"

/-- Environment of one consumption wait: `trace fs1 i` is the state of the
shared signal directory observed at the `i`-th poll, given that the state
just after the orchestrator's write was `fs1` (the target profile's watcher
runs concurrently and mutates the directory between polls); `fuel` is the
number of polls that fit before the 2 s deadline. -/
structure ConsumeEnv where
  trace : FS → Nat → FS
  fuel : Nat

/-- Embeds `switch_profile`: fire-and-forget `activate_chrome` (an external
`osascript` call with no observable effect on the modelled state), write an
empty signal to the target's mailbox, wait for it to be consumed; on
success report method `"signal"`, on timeout spawn Chrome at the target
profile, reporting method `"launch"` or the `OSError` as an error string. -/
def switch_profile (profile_dir : String) (fs : FS) (env : ConsumeEnv)
    (spawn : List String → SpawnOutcome) : JsonObj × FS :=
  let fs1 := write_signal profile_dir none fs
  let w := wait_for_signal_consumed profile_dir (env.trace fs1) env.fuel
  if w.1 then ([("success", .bool true), ("method", .str "signal")], w.2)
  else
    match spawn [CHROME_BIN, "--profile-directory=" ++ profile_dir] with
    | .ok => ([("success", .bool true), ("method", .str "launch")], w.2)
    | .oserror e => ([("error", .str ("Failed to launch Chrome: " ++ e))], w.2)

/-- The payload `open_url_in_profile` writes to the target's mailbox. -/
def openUrlPayload (url : String) : JsonObj := [("url", .str url)]

/-- Embeds `open_url_in_profile`: same state machine as `switch_profile`,
but the written signal carries the url and the fallback launch passes the
url as an extra argument. -/
def open_url_in_profile (profile_dir url : String) (fs : FS) (env : ConsumeEnv)
    (spawn : List String → SpawnOutcome) : JsonObj × FS :=
  let fs1 := write_signal profile_dir (some (openUrlPayload url)) fs
  let w := wait_for_signal_consumed profile_dir (env.trace fs1) env.fuel
  if w.1 then ([("success", .bool true), ("method", .str "signal")], w.2)
  else
    match spawn [CHROME_BIN, "--profile-directory=" ++ profile_dir, url] with
    | .ok => ([("success", .bool true), ("method", .str "launch")], w.2)
    | .oserror e => ([("error", .str ("Failed to launch Chrome: " ++ e))], w.2)

/-! ## Dispatch loop (source lines 238-271) -/

/-- One request, with its fields already extracted at the protocol's types
(`msg.get("action")`, `msg.get("id")`, …; `none` models a missing or null
field).  The extension sends `profileDir` (and `url`) as strings for the
actions that use them; on a request violating that the Python process would
raise an uncaught `TypeError` before responding, which the spec classifies
as a fatal failure outside the request/response protocol, so the model
fixes the protocol types. -/
structure Request where
  action : Option String
  id : Option JsonVal
  profileDir : Option String
  url : Option String
  currentEmail : Option String

/-- External collaborators of one request: the Local State registry read,
the avatar files, the consumption-wait environment and the spawn call. -/
structure Env where
  localState : Except String (List (String × ProfileInfo))
  avatar : String → Option String
  consume : ConsumeEnv
  spawn : List String → SpawnOutcome

/-- Mutable state of `main`: the `watcher_started` flag and the shared
signal directory. -/
structure HostState where
  watcher_started : Bool
  fs : FS

/-- Python's f-string rendering of an optional string (absent is `None`). -/
def pyStrOpt : Option String → String
  | none => "None"
  | some s => s

/-- Embeds the body of the `while` loop of `main` for one request, before
the id is attached: the result dict, the updated state, and the list of
profile directories for which a watcher thread was started during this
request (empty or a singleton). -/
def handle_request (req : Request) (st : HostState) (env : Env) :
    JsonObj × HostState × List String :=
  if req.action = some "register" then
    if truthyStr req.profileDir ∧ st.watcher_started = false then
      ([("success", .bool true)], ⟨true, st.fs⟩, [req.profileDir.getD ""])
    else
      ([("success", .bool true)], st, [])
  else if req.action = some "get-profiles" then
    (get_profiles env.localState env.avatar req.currentEmail, st, [])
  else if req.action = some "switch-profile" then
    let r := switch_profile (req.profileDir.getD "") st.fs env.consume env.spawn
    (r.1, ⟨st.watcher_started, r.2⟩, [])
  else if req.action = some "open-url-in-profile" then
    let r := open_url_in_profile (req.profileDir.getD "") (req.url.getD "")
      st.fs env.consume env.spawn
    (r.1, ⟨st.watcher_started, r.2⟩, [])
  else
    ([("error", .str ("Unknown action: " ++ pyStrOpt req.action))], st, [])

/-- Embeds `if msg_id is not None: result["id"] = msg_id`. -/
def attach_id (id : Option JsonVal) (result : JsonObj) : JsonObj :=
  match id with
  | none => result
  | some v => setKey result "id" v

/-- Embeds the `while True` loop of `main` over a finite prefix of the
request stream: the emitted responses in order, the final state, and all
watcher starts. -/
def run_host : HostState → List (Request × Env) → List JsonObj × HostState × List String
  | st, [] => ([], st, [])
  | st, (req, env) :: rest =>
    let step := handle_request req st env
    let later := run_host step.2.1 rest
    (attach_id req.id step.1 :: later.1, later.2.1, step.2.2 ++ later.2.2)

/-- The first request in the stream that successfully registers a profile
directory (action `register` with a truthy `profileDir`), as a list of zero
or one directories. -/
def firstRegister : List (Request × Env) → List String
  | [] => []
  | (req, _) :: rest =>
    if req.action = some "register" ∧ truthyStr req.profileDir
    then [req.profileDir.getD ""]
    else firstRegister rest

/-! ## Claim-side ordering for C1

The claim describes the ordering in terms of directories "of the form
`Profile <N>`".  The following definitions formalise the claim's words, to
be compared with the code's `profile_sort_key`; they are not part of the
embedding of the source. -/

/-- Numeric value of a list of decimal digit characters. -/
def decDigitsVal : List Char → Nat → Nat
  | [], acc => acc
  | c :: cs, acc => decDigitsVal cs (acc * 10 + (c.toNat - 48))

/-- A directory "of the form `Profile <N>`" in the claim's sense: the
literal prefix "Profile " followed by a decimal numeral `N`. -/
def specProfileNum (s : String) : Option Nat :=
  let cs := s.data
  if cs.take 8 = ['P', 'r', 'o', 'f', 'i', 'l', 'e', ' '] ∧ cs.drop 8 ≠ [] ∧
      (cs.drop 8).all Char.isDigit
  then some (decDigitsVal (cs.drop 8) 0)
  else none

/-- The sort key the claim describes: `"Default"` first, then
`Profile <N>` by ascending `N`, then every directory of any other form. -/
def claimKey (s : String) : Nat × Int :=
  if s = "Default" then (0, 0)
  else
    match specProfileNum s with
    | some n => (1, (n : Int))
    | none => (2, 0)

/-- Stable sort by the claim's key, for comparison with the code's sort. -/
def claimSortedDirs (dirs : List String) : List String :=
  dirs.mergeSort (fun a b => keyLE (claimKey a) (claimKey b))

/-! ## Mailbox lemmas -/

/-- Success of the polling loop is equivalent to the slot being absent at
one of the remaining polls. -/
theorem waitPoll_true_iff (p : String) (trace : Nat → FS) :
    ∀ (fuel i : Nat),
      (waitPoll p trace i fuel).1 = true ↔ ∃ j, j < fuel ∧ trace (i + j) p = none := by
  intro fuel
  induction fuel with
  | zero => intro i; simp [waitPoll]
  | succ n ih =>
    intro i
    rw [waitPoll]
    cases h : trace i p with
    | none =>
      constructor
      · intro _
        exact ⟨0, Nat.succ_pos n, by simpa using h⟩
      · intro _
        rfl
    | some v =>
      constructor
      · intro ht
        obtain ⟨j, hj, hje⟩ := (ih (i + 1)).mp ht
        exact ⟨j + 1, by omega, by simpa [Nat.add_assoc, Nat.add_comm 1 j] using hje⟩
      · rintro ⟨j, hj, hje⟩
        match j with
        | 0 => rw [Nat.add_zero] at hje; rw [h] at hje; cases hje
        | j + 1 =>
          exact (ih (i + 1)).mpr
            ⟨j, by omega, by simpa [Nat.add_assoc, Nat.add_comm 1 j] using hje⟩

/-- After a timed-out polling loop the slot has been force-removed. -/
theorem waitPoll_false_erased (p : String) (trace : Nat → FS) :
    ∀ (fuel i : Nat),
      (waitPoll p trace i fuel).1 = false → (waitPoll p trace i fuel).2 p = none := by
  intro fuel
  induction fuel with
  | zero => intro i _; simp [waitPoll, fsErase]
  | succ n ih =>
    intro i hfalse
    rw [waitPoll] at hfalse ⊢
    revert hfalse
    cases trace i p with
    | none => intro hfalse; exact Bool.noConfusion hfalse
    | some v => intro hfalse; exact ih (i + 1) hfalse

/-- C2: for every profile identifier `p` and poll trace, the consumption
wait returns success if and only if the slot for `p` is absent at some poll
before the timeout; and whenever it returns failure, the slot for `p` no
longer exists in the state on return, regardless of its prior state. -/
theorem wait_for_consumption_spec (p : String) (trace : Nat → FS) (fuel : Nat) :
    ((wait_for_signal_consumed p trace fuel).1 = true ↔
      ∃ j, j < fuel ∧ trace j p = none) ∧
    ((wait_for_signal_consumed p trace fuel).1 = false →
      (wait_for_signal_consumed p trace fuel).2 p = none) := by
  constructor
  · simpa using waitPoll_true_iff p trace fuel 0
  · exact waitPoll_false_erased p trace fuel 0

/-- Witness for C2 at a concrete trace in which the slot never disappears:
the wait fails and the final state has no slot. -/
theorem wait_for_consumption_spec_witness :
    ((wait_for_signal_consumed "Default" (fun _ _ => some SlotContent.corrupt) 2).1 = true ↔
      ∃ j, j < 2 ∧ (fun (_ : Nat) (_ : String) =>
        (some SlotContent.corrupt : Option SlotContent)) j "Default" = none) ∧
    ((wait_for_signal_consumed "Default" (fun _ _ => some SlotContent.corrupt) 2).1 = false →
      (wait_for_signal_consumed "Default" (fun _ _ => some SlotContent.corrupt) 2).2 "Default" = none) :=
  wait_for_consumption_spec "Default" (fun _ _ => some SlotContent.corrupt) 2

/-- C4: a slot holding content that fails to parse as JSON yields "absent"
from `take` and no longer exists afterwards, so corrupt content cannot
block a future delivery. -/
theorem corrupt_slot_cleared (p : String) (fs : FS) (h : fs p = some .corrupt) :
    (read_signal p fs).1 = none ∧ (read_signal p fs).2 p = none := by
  simp [read_signal, h, fsErase]

/-- Witness for C4 on a one-file directory holding corrupt content. -/
theorem corrupt_slot_cleared_witness :
    (read_signal "Default" (fun q => if q = "Default" then some .corrupt else none)).1 = none ∧
    (read_signal "Default" (fun q => if q = "Default" then some .corrupt else none)).2 "Default" = none :=
  corrupt_slot_cleared "Default" (fun q => if q = "Default" then some .corrupt else none)
    (by simp)

/-- C5: a `take` immediately after `write p X` returns `X` and removes the
slot, and a second immediate `take` returns "absent" and changes nothing:
single consumption, no duplication. -/
theorem write_take_single_consumption (p : String) (X : JsonObj) (fs : FS) :
    (read_signal p (write_signal p (some X) fs)).1 = some X ∧
    (read_signal p (write_signal p (some X) fs)).2 p = none ∧
    (read_signal p (read_signal p (write_signal p (some X) fs)).2).1 = none ∧
    (read_signal p (read_signal p (write_signal p (some X) fs)).2).2 =
      (read_signal p (write_signal p (some X) fs)).2 := by
  simp [read_signal, write_signal, fsInsert, fsErase]

/-- C6: two writes to the same slot followed by a `take` return only the
second payload, and a second `take` finds nothing: last-write-wins, no
queueing. -/
theorem write_overwrite_last_wins (p : String) (A B : JsonObj) (fs : FS) :
    (read_signal p (write_signal p (some B) (write_signal p (some A) fs))).1 = some B ∧
    (read_signal p (read_signal p (write_signal p (some B) (write_signal p (some A) fs))).2).1 =
      none := by
  simp [read_signal, write_signal, fsInsert, fsErase]

/-- C10: `open_url_in_profile` with the empty url writes the payload
mapping `"url"` to the empty string, and the watcher that takes that
payload emits a plain `activate` event, exactly as it does for the empty
payload written by `switch_profile`: at the watcher's output an empty url
is indistinguishable from a plain switch signal. -/
theorem empty_url_signal_activates (p : String) (fs : FS) :
    openUrlPayload "" = [("url", .str "")] ∧
    (write_signal p (some (openUrlPayload "")) fs) p =
      some (.parsed [("url", .str "")]) ∧
    (signal_watcher_step p (write_signal p (some (openUrlPayload "")) fs)).1 =
      some [("action", .str "activate")] ∧
    (signal_watcher_step p (write_signal p (some (openUrlPayload "")) fs)).1 =
      (signal_watcher_step p (write_signal p none fs)).1 := by
  refine ⟨rfl, by simp [write_signal, fsInsert, openUrlPayload], ?_, ?_⟩ <;>
    simp [signal_watcher_step, read_signal, write_signal, fsInsert, openUrlPayload,
      pyGet, jsonLookup, JsonVal.truthy]

/-! ## Highlight color -/

/-- Masking a Nat with all eight low bits set is reduction mod 256. -/
theorem and255_eq_mod (m : Nat) : m &&& 255 = m % 256 := by
  have h := Nat.and_pow_two_sub_one_eq_mod m 8
  norm_num at h
  exact h

/-- C8: the highlight-color conversion maps null to null, and maps every
signed 32-bit value to the lowercase string obtained by masking to unsigned
32 bits and extracting R from bits 16-23, G from bits 8-15 and B from bits
0-7; in particular -1 maps to "#ffffff" and 0x00112233 to "#112233". -/
theorem highlight_color_spec (v : Int) (_h1 : -(2 ^ 31) ≤ v) (_h2 : v < 2 ^ 31) :
    highlight_color_to_hex none = none ∧
    highlight_color_to_hex (some (-1)) = some "#ffffff" ∧
    highlight_color_to_hex (some 0x00112233) = some "#112233" ∧
    highlight_color_to_hex (some v) =
      some ("#" ++ hex2 ((v % 4294967296).toNat / 65536 % 256) ++
        hex2 ((v % 4294967296).toNat / 256 % 256) ++
        hex2 ((v % 4294967296).toNat % 256)) := by
  refine ⟨rfl, by decide, by decide, ?_⟩
  simp only [highlight_color_to_hex]
  norm_num [Nat.shiftRight_eq_div_pow, and255_eq_mod]

/-- Witness for C8 at the signed 32-bit value -1. -/
theorem highlight_color_spec_witness :
    highlight_color_to_hex none = none ∧
    highlight_color_to_hex (some (-1)) = some "#ffffff" ∧
    highlight_color_to_hex (some 0x00112233) = some "#112233" ∧
    highlight_color_to_hex (some (-1)) =
      some ("#" ++ hex2 (((-1 : Int) % 4294967296).toNat / 65536 % 256) ++
        hex2 (((-1 : Int) % 4294967296).toNat / 256 % 256) ++
        hex2 (((-1 : Int) % 4294967296).toNat % 256)) :=
  highlight_color_spec (-1) (by norm_num) (by norm_num)

/-! ## Activation orchestrator results -/

/-- One response is emitted per request, whatever the individual results
were: an error result does not stop the dispatch loop. -/
theorem run_host_length (st : HostState) (reqs : List (Request × Env)) :
    (run_host st reqs).1.length = reqs.length := by
  induction reqs generalizing st with
  | nil => rfl
  | cons re t ih =>
    obtain ⟨req, env⟩ := re
    simp [run_host, ih]

/-- C3: `switch_profile` and `open_url_in_profile` return success with
method "signal" when the written mailbox slot is consumed within the wait
timeout; otherwise they spawn a browser process for the target profile
(with the url as an extra launch argument for `open_url_in_profile`) and
return success with method "launch", or, exactly when the spawn call raises
an OS error, an error-string result; and the dispatch loop still emits one
response per request afterwards, so the process keeps serving requests. -/
theorem activation_result_spec (p url : String) (fs : FS) (env : ConsumeEnv)
    (spawn : List String → SpawnOutcome) :
    (((wait_for_signal_consumed p (env.trace (write_signal p none fs)) env.fuel).1 = true →
        (switch_profile p fs env spawn).1 =
          [("success", .bool true), ("method", .str "signal")]) ∧
      ((wait_for_signal_consumed p (env.trace (write_signal p none fs)) env.fuel).1 = false →
        (spawn [CHROME_BIN, "--profile-directory=" ++ p] = .ok →
          (switch_profile p fs env spawn).1 =
            [("success", .bool true), ("method", .str "launch")]) ∧
        (∀ e, spawn [CHROME_BIN, "--profile-directory=" ++ p] = .oserror e →
          (switch_profile p fs env spawn).1 =
            [("error", .str ("Failed to launch Chrome: " ++ e))]))) ∧
    (((wait_for_signal_consumed p
          (env.trace (write_signal p (some (openUrlPayload url)) fs)) env.fuel).1 = true →
        (open_url_in_profile p url fs env spawn).1 =
          [("success", .bool true), ("method", .str "signal")]) ∧
      ((wait_for_signal_consumed p
          (env.trace (write_signal p (some (openUrlPayload url)) fs)) env.fuel).1 = false →
        (spawn [CHROME_BIN, "--profile-directory=" ++ p, url] = .ok →
          (open_url_in_profile p url fs env spawn).1 =
            [("success", .bool true), ("method", .str "launch")]) ∧
        (∀ e, spawn [CHROME_BIN, "--profile-directory=" ++ p, url] = .oserror e →
          (open_url_in_profile p url fs env spawn).1 =
            [("error", .str ("Failed to launch Chrome: " ++ e))]))) ∧
    (∀ (st : HostState) (reqs : List (Request × Env)),
      (run_host st reqs).1.length = reqs.length) := by
  refine ⟨⟨?_, ?_⟩, ⟨?_, ?_⟩, fun st reqs => run_host_length st reqs⟩
  · intro hw
    simp [switch_profile, hw]
  · intro hw
    refine ⟨fun hsp => ?_, fun e hsp => ?_⟩ <;> simp [switch_profile, hw, hsp]
  · intro hw
    simp [open_url_in_profile, hw]
  · intro hw
    refine ⟨fun hsp => ?_, fun e hsp => ?_⟩ <;> simp [open_url_in_profile, hw, hsp]

/-- Witness for C3: with a trace in which the slot is consumed at the first
poll, both operations report method "signal". -/
theorem activation_result_spec_witness :
    (switch_profile "Default" (fun _ => none) ⟨fun _ _ _ => none, 1⟩ (fun _ => .ok)).1 =
      [("success", .bool true), ("method", .str "signal")] ∧
    (open_url_in_profile "Default" "" (fun _ => none) ⟨fun _ _ _ => none, 1⟩
        (fun _ => .ok)).1 =
      [("success", .bool true), ("method", .str "signal")] :=
  ⟨(activation_result_spec "Default" "" (fun _ => none) ⟨fun _ _ _ => none, 1⟩
      (fun _ => .ok)).1.1 rfl,
   (activation_result_spec "Default" "" (fun _ => none) ⟨fun _ _ _ => none, 1⟩
      (fun _ => .ok)).2.1.1 rfl⟩

/-! ## Dispatch loop: watcher registration and response correlation -/

/-- Once the watcher flag is set, no request ever starts another watcher. -/
theorem run_host_started_no_starts (reqs : List (Request × Env)) :
    ∀ fs : FS, (run_host ⟨true, fs⟩ reqs).2.2 = [] := by
  induction reqs with
  | nil => intro fs; rfl
  | cons re t ih =>
    intro fs
    obtain ⟨req, env⟩ := re
    rw [run_host]
    simp only [handle_request]
    split_ifs <;> simp_all

/-- From a not-yet-started state, the watcher starts recorded by the run
are exactly the first successful registration. -/
theorem run_host_starts_eq_firstRegister (reqs : List (Request × Env)) :
    ∀ fs : FS, (run_host ⟨false, fs⟩ reqs).2.2 = firstRegister reqs := by
  induction reqs with
  | nil => intro fs; rfl
  | cons re t ih =>
    intro fs
    obtain ⟨req, env⟩ := re
    rw [run_host, firstRegister]
    simp only [handle_request]
    split_ifs <;> simp_all [run_host_started_no_starts]

/-- The first successful registration is at most one watcher start. -/
theorem firstRegister_length_le_one (reqs : List (Request × Env)) :
    (firstRegister reqs).length ≤ 1 := by
  induction reqs with
  | nil => simp [firstRegister]
  | cons re t ih =>
    obtain ⟨req, env⟩ := re
    rw [firstRegister]
    split_ifs <;> simp_all

/-- Every register request is answered with a plain success result,
whatever the registration state. -/
theorem run_host_register_success (reqs : List (Request × Env)) :
    ∀ st : HostState,
      List.Forall₂ (fun (re : Request × Env) (resp : JsonObj) =>
          re.1.action = some "register" → resp = attach_id re.1.id [("success", .bool true)])
        reqs (run_host st reqs).1 := by
  induction reqs with
  | nil => intro st; constructor
  | cons re t ih =>
    intro st
    obtain ⟨req, env⟩ := re
    rw [run_host]
    refine List.Forall₂.cons ?_ (ih _)
    intro hreg
    have : (handle_request req st env).1 = [("success", .bool true)] := by
      simp only [handle_request]
      split_ifs <;> simp_all
    rw [this]

/-- C7: a run of the dispatch loop from a fresh process starts at most one
watcher, tied to the first register request carrying a truthy profile
directory; every register request (including all later ones) is answered
with success true, and no later registration records a second start. -/
theorem register_single_watcher (fs0 : FS) (reqs : List (Request × Env)) :
    (run_host ⟨false, fs0⟩ reqs).2.2 = firstRegister reqs ∧
    (firstRegister reqs).length ≤ 1 ∧
    List.Forall₂ (fun (re : Request × Env) (resp : JsonObj) =>
        re.1.action = some "register" → resp = attach_id re.1.id [("success", .bool true)])
      reqs (run_host ⟨false, fs0⟩ reqs).1 :=
  ⟨run_host_starts_eq_firstRegister reqs fs0, firstRegister_length_le_one reqs,
    run_host_register_success reqs ⟨false, fs0⟩⟩

/-- Witness for C7 on a stream of two register requests for different
identifiers: one watcher start, for the first identifier. -/
theorem register_single_watcher_witness :
    (run_host ⟨false, fun _ => none⟩
        [(⟨some "register", none, some "Profile 1", none, none⟩,
          ⟨Except.ok [], fun _ => none, ⟨fun _ _ _ => none, 0⟩, fun _ => .ok⟩),
         (⟨some "register", none, some "Profile 2", none, none⟩,
          ⟨Except.ok [], fun _ => none, ⟨fun _ _ _ => none, 0⟩, fun _ => .ok⟩)]).2.2 =
      firstRegister
        [(⟨some "register", none, some "Profile 1", none, none⟩,
          ⟨Except.ok [], fun _ => none, ⟨fun _ _ _ => none, 0⟩, fun _ => .ok⟩),
         (⟨some "register", none, some "Profile 2", none, none⟩,
          ⟨Except.ok [], fun _ => none, ⟨fun _ _ _ => none, 0⟩, fun _ => .ok⟩)] ∧
    (firstRegister
        [(⟨some "register", none, some "Profile 1", none, none⟩,
          ⟨Except.ok [], fun _ => none, ⟨fun _ _ _ => none, 0⟩, fun _ => .ok⟩),
         (⟨some "register", none, some "Profile 2", none, none⟩,
          ⟨Except.ok [], fun _ => none, ⟨fun _ _ _ => none, 0⟩, fun _ => .ok⟩)]).length ≤ 1 ∧
    List.Forall₂ (fun (re : Request × Env) (resp : JsonObj) =>
        re.1.action = some "register" → resp = attach_id re.1.id [("success", .bool true)])
      [(⟨some "register", none, some "Profile 1", none, none⟩,
        ⟨Except.ok [], fun _ => none, ⟨fun _ _ _ => none, 0⟩, fun _ => .ok⟩),
       (⟨some "register", none, some "Profile 2", none, none⟩,
        ⟨Except.ok [], fun _ => none, ⟨fun _ _ _ => none, 0⟩, fun _ => .ok⟩)]
      (run_host ⟨false, fun _ => none⟩
        [(⟨some "register", none, some "Profile 1", none, none⟩,
          ⟨Except.ok [], fun _ => none, ⟨fun _ _ _ => none, 0⟩, fun _ => .ok⟩),
         (⟨some "register", none, some "Profile 2", none, none⟩,
          ⟨Except.ok [], fun _ => none, ⟨fun _ _ _ => none, 0⟩, fun _ => .ok⟩)]).1 :=
  register_single_watcher (fun _ => none)
    [(⟨some "register", none, some "Profile 1", none, none⟩,
      ⟨Except.ok [], fun _ => none, ⟨fun _ _ _ => none, 0⟩, fun _ => .ok⟩),
     (⟨some "register", none, some "Profile 2", none, none⟩,
      ⟨Except.ok [], fun _ => none, ⟨fun _ _ _ => none, 0⟩, fun _ => .ok⟩)]

/-- A key set by `setKey` is found by lookup. -/
theorem jsonLookup_setKey (o : JsonObj) (k : String) (v : JsonVal) :
    jsonLookup (setKey o k v) k = some v := by
  induction o with
  | nil => simp [setKey, jsonLookup]
  | cons kv rest ih =>
    obtain ⟨k', v'⟩ := kv
    by_cases h : k' = k <;> simp [setKey, jsonLookup, h, ih]

/-- No result built by `get_profiles` contains an `id` key. -/
theorem get_profiles_no_id (ls : Except String (List (String × ProfileInfo)))
    (av : String → Option String) (ce : Option String) :
    jsonLookup (get_profiles ls av ce) "id" = none := by
  cases ls with
  | error e => simp [get_profiles, jsonLookup]
  | ok cache =>
    simp only [get_profiles]
    split_ifs <;> simp [jsonLookup]

/-- No result built by `switch_profile` contains an `id` key. -/
theorem switch_profile_no_id (p : String) (fs : FS) (env : ConsumeEnv)
    (spawn : List String → SpawnOutcome) :
    jsonLookup (switch_profile p fs env spawn).1 "id" = none := by
  simp only [switch_profile]
  split_ifs
  · simp [jsonLookup]
  · split <;> simp [jsonLookup]

/-- No result built by `open_url_in_profile` contains an `id` key. -/
theorem open_url_in_profile_no_id (p url : String) (fs : FS) (env : ConsumeEnv)
    (spawn : List String → SpawnOutcome) :
    jsonLookup (open_url_in_profile p url fs env spawn).1 "id" = none := by
  simp only [open_url_in_profile]
  split_ifs
  · simp [jsonLookup]
  · split <;> simp [jsonLookup]

/-- No result dict contains an `id` key before the dispatch loop attaches
the request's id. -/
theorem handle_request_no_id (req : Request) (st : HostState) (env : Env) :
    jsonLookup (handle_request req st env).1 "id" = none := by
  simp only [handle_request]
  split_ifs <;>
    simp [jsonLookup, get_profiles_no_id, switch_profile_no_id, open_url_in_profile_no_id]

/-- C9: the dispatch loop emits exactly one response per request; a
request with a non-null id gets that id echoed in its response, and a
request without an id (or with a null one) gets a response with no id
field. -/
theorem dispatch_id_echo (st : HostState) (reqs : List (Request × Env)) :
    (run_host st reqs).1.length = reqs.length ∧
    List.Forall₂ (fun (re : Request × Env) (resp : JsonObj) =>
        match re.1.id with
        | some v => jsonLookup resp "id" = some v
        | none => jsonLookup resp "id" = none)
      reqs (run_host st reqs).1 := by
  refine ⟨run_host_length st reqs, ?_⟩
  induction reqs generalizing st with
  | nil => constructor
  | cons re t ih =>
    obtain ⟨req, env⟩ := re
    rw [run_host]
    refine List.Forall₂.cons ?_ (ih _)
    cases hid : req.id with
    | none => simpa [attach_id, hid] using handle_request_no_id req st env
    | some v => simp [attach_id, hid, jsonLookup_setKey]

/-! ## Profile ordering -/

/-- The key order is reflexive. -/
theorem keyLE_refl (k : Nat × Int) : keyLE k k = true := by
  simp [keyLE]

/-- The key order is transitive. -/
theorem keyLE_trans (a b c : Nat × Int) : keyLE a b → keyLE b c → keyLE a c := by
  simp only [keyLE, Bool.or_eq_true, Bool.and_eq_true, decide_eq_true_eq]
  omega

/-- The key order is total. -/
theorem keyLE_total (a b : Nat × Int) : keyLE a b || keyLE b a := by
  simp only [keyLE, Bool.or_eq_true, Bool.and_eq_true, decide_eq_true_eq]
  omega

/-- The directory order inherits transitivity. -/
theorem dirLE_trans (a b c : String) : dirLE a b → dirLE b c → dirLE a c :=
  keyLE_trans _ _ _

/-- The directory order inherits totality. -/
theorem dirLE_total (a b : String) : dirLE a b || dirLE b a :=
  keyLE_total _ _

/-- C1 counterexample: the claim says every directory not of the form
`Profile <N>` (and not `Default`) comes after all the `Profile <N>`
directories, but the code keys any directory whose last whitespace token
parses as an integer into the middle bucket: `"Custom 2"` sorts before
`"Profile 10"`, where the claim requires it after. -/
theorem profile_sort_claim_counterexample :
    sortedProfileDirs ["Profile 10", "Custom 2"] = ["Custom 2", "Profile 10"] ∧
    claimSortedDirs ["Profile 10", "Custom 2"] = ["Profile 10", "Custom 2"] ∧
    sortedProfileDirs ["Profile 10", "Custom 2"] ≠
      claimSortedDirs ["Profile 10", "Custom 2"] := by
  refine ⟨?_, ?_, ?_⟩ <;>
    simp +decide [sortedProfileDirs, claimSortedDirs, List.mergeSort, List.splitInTwo,
      List.splitAt_eq, List.merge]

/-- C1 (amended): `get-profiles` sorts the directory keys stably by
`profile_sort_key`: `"Default"` first; then every directory whose LAST
whitespace-separated token parses as a Python integer `N` (not only those
of the form `Profile <N>`), in ascending order of `N`; every remaining
directory after those, keeping original relative order among equal keys;
and the claim's example sorts exactly as stated. -/
theorem profile_sort_amended (l : List String) :
    (sortedProfileDirs l).Perm l ∧
    List.Pairwise (fun a b => dirLE a b = true) (sortedProfileDirs l) ∧
    (∀ c : List String,
      c.Pairwise (fun a b => profile_sort_key a = profile_sort_key b) →
      c.Sublist l → c.Sublist (sortedProfileDirs l)) ∧
    profile_sort_key "Default" = (0, 0) ∧
    (∀ s tok n, s ≠ "Default" → (pySplit s).getLast? = some tok →
      pythonInt tok = some n → profile_sort_key s = (1, n)) ∧
    (∀ s, s ≠ "Default" →
      ((pySplit s).getLast? = none ∨
        ∃ tok, (pySplit s).getLast? = some tok ∧ pythonInt tok = none) →
      profile_sort_key s = (2, 0)) ∧
    sortedProfileDirs ["Profile 10", "Default", "Profile 2", "Custom"] =
      ["Default", "Profile 2", "Profile 10", "Custom"] ∧
    (∀ (cache : List (String × ProfileInfo)) (av : String → Option String)
        (ce : Option String), cache ≠ [] →
      jsonLookup (get_profiles (.ok cache) av ce) "profiles" =
        some (.arr ((sortedProfileDirs (cache.map Prod.fst)).map fun d =>
          profileRecord d ((lookupInfo cache d).getD ⟨none, none, none⟩) av))) := by
  refine ⟨List.mergeSort_perm l dirLE, ?_, ?_, rfl, ?_, ?_, ?_, ?_⟩
  · exact List.sorted_mergeSort dirLE_trans dirLE_total l
  · intro c hkey hsub
    refine List.sublist_mergeSort dirLE_trans dirLE_total ?_ hsub
    exact hkey.imp fun h => by simp [dirLE, h, keyLE_refl]
  · intro s tok n hs htok hint
    simp [profile_sort_key, hs, htok, hint]
  · intro s hs hcase
    rcases hcase with h | ⟨tok, htok, hint⟩
    · simp [profile_sort_key, hs, h]
    · simp [profile_sort_key, hs, htok, hint]
  · simp +decide [sortedProfileDirs, List.mergeSort, List.splitInTwo,
      List.splitAt_eq, List.merge]
  · intro cache av ce hne
    have hF : cache.isEmpty = false := by simpa [List.isEmpty_iff] using hne
    simp [get_profiles, hF, jsonLookup, List.map_map, Function.comp]

/-- Witness for C1 (amended): stability of the last bucket and the key
characterization at concrete directories. -/
theorem profile_sort_amended_witness :
    List.Sublist ["Custom A", "Custom B"]
      (sortedProfileDirs ["Profile 10", "Custom A", "Custom B"]) ∧
    profile_sort_key "Profile 7" = (1, 7) ∧
    profile_sort_key "Custom" = (2, 0) :=
  ⟨(profile_sort_amended ["Profile 10", "Custom A", "Custom B"]).2.2.1
      ["Custom A", "Custom B"] (by decide) (by decide),
   (profile_sort_amended ["Profile 10", "Custom A", "Custom B"]).2.2.2.2.1
      "Profile 7" "7" 7 (by decide) (by decide) (by decide),
   (profile_sort_amended []).2.2.2.2.2.1 "Custom" (by decide)
      (Or.inr ⟨"Custom", by decide, by decide⟩)⟩

end ProfileSwitcher
